import Mathlib

/-!
# Formal model of the hotspots-V2 geospatial scoring pipeline

A shallow embedding of the repository's scoring pipeline:

* `model/generate_data.py` — min-max `normalize`, the linear vulnerability
  formula, and the point-sampling keep/skip logic;
* `model/generate_delhi_data.py` — the Delhi generator's plausibility checks
  and its own (clamped, additive) vulnerability computation;
* `model/compute_priorities.py` — the plant-priority counterfactual delta;
* `HotSpots-AI/server/main.py` — the `/api/vulnerability-points` handler:
  forecast-based base AQI, per-feature AQI, batch model scoring, tiered
  health risk.

Python floats are modelled as exact rationals (`ℚ`); Python `int()` on a
float is truncation toward zero; Python's `round` is round-half-to-even on
the exact rational value.  The pseudorandom draws made after `random.seed(42)`
are modelled as abstract sequences (`ℕ → ℤ` for the `randint(-15, 15)` calls
of the AQI loop, `ℕ → ℚ` for the unit-interval draws of the health-risk loop):
after seeding, those sequences are a fixed function of the seed alone.
-/

namespace HotspotsV2

/-- Python's `min(arr)` for a nonempty list `a :: l` (a left fold of `min`). -/
def pyMin (a : ℚ) (l : List ℚ) : ℚ :=
  l.foldl min a

/-- Python's `max(arr)` for a nonempty list `a :: l` (a left fold of `max`). -/
def pyMax (a : ℚ) (l : List ℚ) : ℚ :=
  l.foldl max a

/-- `normalize` from `model/generate_data.py` lines 120-124 (an identical
copy lives in `model/compute_priorities.py` lines 40-44):
empty input gives `[]`; a constant range (`mx == mn`) gives all `0.5`;
otherwise each value maps to `(v - mn) / (mx - mn)`. -/
def normalize (arr : List ℚ) : List ℚ :=
  match arr with
  | [] => []
  | a :: rest =>
    if pyMax a rest = pyMin a rest then
      (a :: rest).map (fun _ => (1 : ℚ) / 2)
    else
      (a :: rest).map (fun v => (v - pyMin a rest) / (pyMax a rest - pyMin a rest))

/-- The linear vulnerability formula of `model/generate_data.py` line 131:
`V = W1*nT[i] - W2*nN[i] + W3*nB[i]` (no clamping). -/
def vulnFormula (w1 w2 w3 nT nN nB : ℚ) : ℚ :=
  w1 * nT - w2 * nN + w3 * nB

/-- GeoJSON feature properties used anywhere in the pipeline.  Note that the
offline generators write the building density under the key `bldDensity`,
while the server reads the key `bld_density`; both are modelled as separate
optional fields of the same property map. -/
structure Props where
  temp : Option ℚ := none
  ndvi : Option ℚ := none
  bldDensity : Option ℚ := none
  bld_density : Option ℚ := none
  vulnerability : Option ℚ := none
  aqi : Option ℤ := none
  pop : Option ℚ := none
  health_risk : Option ℚ := none
deriving DecidableEq

/-- A GeoJSON point feature: coordinates plus a property map. -/
structure Feature where
  lon : ℚ
  lat : ℚ
  props : Props
deriving DecidableEq

/-- A GeoJSON feature collection: the top-level `type` string and the ordered
feature list. -/
structure FeatureCollection where
  ctype : String
  features : List Feature
deriving DecidableEq

/-- The all-absent property map. -/
def emptyProps : Props := {}

/-- Fallback feature for positional lookups (never selected under the
in-bounds hypotheses of the theorems below). -/
def dfeat : Feature :=
  { lon := 0, lat := 0, props := emptyProps }

/-- One candidate point of `model/generate_data.py`'s sampling loop, after the
raster sampler and density estimator succeeded: its coordinates and the three
raw sampled metrics. -/
structure RawSample where
  lon : ℚ
  lat : ℚ
  temp : ℚ
  ndvi : ℚ
  density : ℚ
deriving DecidableEq, Inhabited

/-- The keep/skip decision of `model/generate_data.py` lines 97-98: the point
is skipped exactly when `ndvi < 0.0`.  The sampled temperature is not
examined at all. -/
def genDataKeeps (temp ndvi : ℚ) : Bool :=
  decide (¬ ndvi < 0)

/-- `model/generate_data.py` lines 82-132: filter the sampled points, build
per-metric arrays, min-max normalize each metric independently, and attach
`vulnerability = W1*nT[i] - W2*nN[i] + W3*nB[i]` to the `i`-th kept feature,
whose properties are `temp`, `ndvi`, `bldDensity`. -/
def generateData (W1 W2 W3 : ℚ) (samples : List RawSample) : List Feature :=
  let kept := samples.filter (fun s => genDataKeeps s.temp s.ndvi)
  let nT := normalize (kept.map (fun s => s.temp))
  let nN := normalize (kept.map (fun s => s.ndvi))
  let nB := normalize (kept.map (fun s => s.density))
  (List.range kept.length).map (fun i =>
    let s := kept.getD i default
    { lon := s.lon, lat := s.lat,
      props := { emptyProps with
        temp := some s.temp,
        ndvi := some s.ndvi,
        bldDensity := some s.density,
        vulnerability :=
          some (vulnFormula W1 W2 W3 (nT.getD i 0) (nN.getD i 0) (nB.getD i 0)) } })

/-- `model/generate_data.py` lines 134-138: the persisted document is a
feature collection with top-level `type` `"FeatureCollection"`. -/
def generateDataCollection (W1 W2 W3 : ℚ) (samples : List RawSample) : FeatureCollection :=
  { ctype := "FeatureCollection", features := generateData W1 W2 W3 samples }

/-- `min(1.0, max(0.0, q))` as written throughout `model/generate_delhi_data.py`. -/
def clamp01 (q : ℚ) : ℚ :=
  min 1 (max 0 q)

/-- Python's `round(q, k)` on the exact rational value: round half to even at
the `k`-th decimal place. -/
def pyRoundTo (k : ℕ) (q : ℚ) : ℚ :=
  let m : ℚ := (10 : ℚ) ^ k
  let x := q * m
  let n : ℤ := ⌊x⌋
  let fr := x - (n : ℚ)
  let r : ℤ :=
    if fr < 1 / 2 then n
    else if 1 / 2 < fr then n + 1
    else if n % 2 = 0 then n else n + 1
  (r : ℚ) / m

/-- Python's `int()` on a float value: truncation toward zero. -/
def truncQ (q : ℚ) : ℤ :=
  if 0 ≤ q then ⌊q⌋ else -⌊-q⌋

/-- `model/generate_delhi_data.py` lines 109-110: temperature normalized
against the fixed Delhi bounds `MIN_TEMP = 25.0`, `MAX_TEMP = 50.0`, then
clamped to `[0, 1]`. -/
def delhiNormTemp (val_lst : ℚ) : ℚ :=
  clamp01 ((val_lst - 25) / (50 - 25))

/-- `model/generate_delhi_data.py` lines 121-122: NDVI re-normalized against
the approximate bounds `(-0.1, 0.8)`, then clamped to `[0, 1]`. -/
def delhiNdvi01 (val_ndvi : ℚ) : ℚ :=
  clamp01 ((val_ndvi - (-1 / 10)) / (8 / 10 - (-1 / 10)))

/-- `model/generate_delhi_data.py` lines 124-125: the Delhi vulnerability is
`W_TEMP*norm_temp + W_NDVI*(1 - ndvi_0_1) + W_DENS*bld_density` with weights
`(0.5, 0.3, 0.2)`, clamped to `[0, 1]`. -/
def delhiVuln (val_lst val_ndvi bld_density : ℚ) : ℚ :=
  clamp01 ((1 / 2) * delhiNormTemp val_lst
    + (3 / 10) * (1 - delhiNdvi01 val_ndvi)
    + (1 / 5) * bld_density)

/-- The keep/skip decision of `model/generate_delhi_data.py` lines 81-84: the
point is skipped when `val_lst < -100 or val_lst > 100` or when
`val_ndvi < -1 or val_ndvi > 1`. -/
def delhiKeeps (val_lst val_ndvi : ℚ) : Bool :=
  decide (¬ (val_lst < -100 ∨ 100 < val_lst)) && decide (¬ (val_ndvi < -1 ∨ 1 < val_ndvi))

/-- One candidate point of the Delhi generator's loop after the raster sampler
and density estimator succeeded. -/
structure DelhiSample where
  lon : ℚ
  lat : ℚ
  val_lst : ℚ
  val_ndvi : ℚ
  rawDensity : ℚ
deriving DecidableEq, Inhabited

/-- `model/generate_delhi_data.py` lines 67-141, one loop iteration: apply the
plausibility checks, clamp the density to `[0, 1]`, and build the feature
with rounded `temp`, `ndvi`, `bldDensity`, `vulnerability` properties;
implausible samples produce no feature at all. -/
def delhiPoint (lon lat val_lst val_ndvi rawDensity : ℚ) : Option Feature :=
  if delhiKeeps val_lst val_ndvi then
    let bld := clamp01 rawDensity
    some
      { lon := lon, lat := lat,
        props := { emptyProps with
          temp := some (pyRoundTo 2 val_lst),
          ndvi := some (pyRoundTo 3 val_ndvi),
          bldDensity := some (pyRoundTo 3 bld),
          vulnerability := some (pyRoundTo 3 (delhiVuln val_lst val_ndvi bld)) } }
  else
    none

/-- The Delhi generator over a whole list of candidate samples. -/
def delhiGenerate (samples : List DelhiSample) : List Feature :=
  samples.filterMap (fun s => delhiPoint s.lon s.lat s.val_lst s.val_ndvi s.rawDensity)

/-- Input record of `model/compute_priorities.py`: the four properties it
reads from every feature of `vulnerability_points.geojson`. -/
structure PriorityIn where
  temp : ℚ
  ndvi : ℚ
  bldDensity : ℚ
  vulnerability : ℚ
deriving DecidableEq, Inhabited

/-- `model/compute_priorities.py` lines 25-52: renormalize the three metrics
over the whole dataset, then for the `i`-th feature set
`plantPriority = V0 - V1` where `V0` is the stored vulnerability and
`V1 = w1*nT[i] - w2*min(nN[i] + 0.2, 1.0) + w3*nB[i]`. -/
def computePriorities (w1 w2 w3 : ℚ) (feats : List PriorityIn) : List ℚ :=
  let nT := normalize (feats.map (fun f => f.temp))
  let nN := normalize (feats.map (fun f => f.ndvi))
  let nB := normalize (feats.map (fun f => f.bldDensity))
  (List.range feats.length).map (fun i =>
    let V0 := (feats.getD i default).vulnerability
    let n2 := min (nN.getD i 0 + 1 / 5) 1
    let V1 := w1 * nT.getD i 0 - w2 * n2 + w3 * nB.getD i 0
    V0 - V1)

/-- `server/main.py` line 106: the fixed lookup table mapping the OWM 1-5
category to a 0-500 scale, with `mapping.get(owm_aqi, 200)` defaulting to
`200` for a category outside `{1, ..., 5}`. -/
def owmMapping (c : ℤ) : ℚ :=
  if c = 1 then 40
  else if c = 2 then 80
  else if c = 3 then 130
  else if c = 4 then 180
  else if c = 5 then 250
  else 200

/-- `server/main.py` lines 86-119: the city-wide base AQI.  `forecast = none`
models every failure mode (no API key, request exception, non-200 status);
`forecast = some cats` models a 200 response whose items carry the category
values `cats`.  The first 24 items are mapped and averaged; if no item
exists, or on failure, the base falls back to `150`. -/
def cityAqiPrediction (forecast : Option (List ℤ)) : ℚ :=
  match forecast with
  | none => 150
  | some cats =>
    let cats24 := cats.take 24
    if cats24.length = 0 then 150
    else (cats24.map owmMapping).sum / (cats24.length : ℚ)

/-- `server/main.py` line 126: `props.get('bld_density', 0)` — note the key
differs from the generators' `bldDensity`. -/
def serverBld (p : Props) : ℚ :=
  p.bld_density.getD 0

/-- `server/main.py` line 127: `props.get('ndvi', 0)`. -/
def serverNdvi (p : Props) : ℚ :=
  p.ndvi.getD 0

/-- `server/main.py` line 128: `props.get('temp', 30)`. -/
def serverTemp (p : Props) : ℚ :=
  p.temp.getD 30

/-- `server/main.py` line 132: the `[temp, ndvi, bld]` row appended to
`ms_inputs` for one feature. -/
def msRow (p : Props) : ℚ × ℚ × ℚ :=
  (serverTemp p, serverNdvi p, serverBld p)

/-- `server/main.py` lines 138-145: per-feature AQI.
`local_variance = bld*50 - ndvi*40`, `noise = randint(-15, 15)`,
`aqi = max(20, min(500, int(base + local_variance + noise)))`. -/
def featureAqi (base : ℚ) (noise : ℤ) (p : Props) : ℤ :=
  let local_variance := serverBld p * 50 - serverNdvi p * 40
  let final_aqi := base + local_variance + (noise : ℚ)
  max 20 (min 500 (truncQ final_aqi))

/-- `server/main.py` lines 156-176: the tiered health risk for one feature.
`r` is the single unit-interval draw the branch consumes
(`uniform(0, 0.05) = 0.05*r`, `uniform(0, 0.1) = 0.1*r`, `random() = r`).
The result is clamped to `[0.1, 1.0]`. -/
def healthRisk (aqi_val : ℤ) (bld vuln_score r : ℚ) : ℚ :=
  let final_risk :=
    if 300 < aqi_val then 95 / 100 + (5 / 100) * r
    else if 8 / 10 < bld ∧ 6 / 10 < vuln_score then 85 / 100 + (1 / 10) * r
    else if r < 1 / 10 then 9 / 10
    else min (7 / 10) (3 / 10 + vuln_score * (4 / 10) + ((aqi_val : ℚ) / 500) * (3 / 10))
  max (1 / 10) (min 1 final_risk)

/-- `server/main.py` lines 124-147, restricted to the mutation they perform:
set `aqi` on every feature in order (`z i` is the `i`-th `randint(-15, 15)`
draw); `temp`, `ndvi`, `bld_density` are read but unchanged. -/
def phase1 (base : ℚ) (z : ℕ → ℤ) (feats : List Feature) : List Feature :=
  (List.range feats.length).map (fun i =>
    let f := feats.getD i dfeat
    { f with props := { f.props with aqi := some (featureAqi base (z i) f.props) } })

/-- `server/main.py` lines 150-176: `for i, pred in enumerate(predictions)`,
set `vulnerability` to the `i`-th prediction and `health_risk` from the tier
policy (`u i` is the unit draw feature `i` consumes). -/
def phase2 (u : ℕ → ℚ) (predictions : List ℚ) (feats1 : List Feature) : List Feature :=
  (List.range feats1.length).map (fun i =>
    let f := feats1.getD i dfeat
    if i < predictions.length then
      let vuln_score := predictions.getD i 0
      let aqi_val := f.props.aqi.getD 0
      let bld := serverBld f.props
      { f with props := { f.props with
          vulnerability := some vuln_score,
          health_risk := some (healthRisk aqi_val bld vuln_score (u i)) } }
    else f)

/-- The `/api/vulnerability-points` handler of `server/main.py` lines 66-178.
`rf` is the optional regression model (a pure row scorer, batch inference is
`List.map rf`); `forecast` the external fetch outcome; `z`, `u` the
deterministic draw sequences produced after `random.seed(42)`;
`rngState0` the global `random`-module state existing before the request,
which `random.seed(42)` discards unread; `data` the stored collection. -/
def getVulnerabilityPoints (rf : Option (ℚ × ℚ × ℚ → ℚ)) (forecast : Option (List ℤ))
    (z : ℕ → ℤ) (u : ℕ → ℚ) (rngState0 : ℕ) (data : FeatureCollection) : FeatureCollection :=
  let base := cityAqiPrediction forecast
  let feats1 := phase1 base z data.features
  match rf with
  | none => { data with features := feats1 }
  | some model =>
    let ms_inputs := data.features.map (fun f => msRow f.props)
    if ms_inputs.length = 0 then { data with features := feats1 }
    else
      let predictions := ms_inputs.map model
      { data with features := phase2 u predictions feats1 }

/-- Concrete fixture: one stored feature as the generators persist it, with
the server-side `bld_density` key also present so the density path is
exercised. -/
def wFeature : Feature :=
  { lon := 0, lat := 0,
    props := { emptyProps with
      temp := some 35, ndvi := some (1 / 2), bld_density := some (1 / 4) } }

/-- Concrete fixture: a stored one-feature collection. -/
def wCollection : FeatureCollection :=
  { ctype := "FeatureCollection", features := [wFeature] }

/-- Concrete fixture: a stored collection holding one feature with no
properties at all. -/
def bareCollection : FeatureCollection :=
  { ctype := "FeatureCollection", features := [dfeat] }

/-! ## Shared helper lemmas -/

lemma getD_eq_getElem_of_lt {α : Type _} (l : List α) (i : ℕ) (d : α) (h : i < l.length) :
    l.getD i d = l[i] :=
  List.getD_eq_getElem l d h

lemma getD_map_range {α : Type _} (n i : ℕ) (h : i < n) (g : ℕ → α) (d : α) :
    ((List.range n).map g).getD i d = g i := by
  have h1 : i < ((List.range n).map g).length := by simpa using h
  rw [List.getD_eq_getElem _ _ h1]
  simp

lemma getD_map_of_lt {α β : Type _} (l : List α) (f : α → β) (i : ℕ) (h : i < l.length)
    (d : β) (d' : α) : (l.map f).getD i d = f (l.getD i d') := by
  have h1 : i < (l.map f).length := by simpa using h
  rw [List.getD_eq_getElem _ _ h1, List.getD_eq_getElem _ _ h]
  simp

lemma pyMin_le_init (l : List ℚ) : ∀ a : ℚ, pyMin a l ≤ a := by
  induction l with
  | nil => intro a; simp [pyMin]
  | cons b t ih =>
    intro a
    have h1 : pyMin a (b :: t) = pyMin (min a b) t := rfl
    calc pyMin a (b :: t) = pyMin (min a b) t := h1
      _ ≤ min a b := ih (min a b)
      _ ≤ a := min_le_left a b

lemma init_le_pyMax (l : List ℚ) : ∀ a : ℚ, a ≤ pyMax a l := by
  induction l with
  | nil => intro a; simp [pyMax]
  | cons b t ih =>
    intro a
    have h1 : pyMax a (b :: t) = pyMax (max a b) t := rfl
    calc a ≤ max a b := le_max_left a b
      _ ≤ pyMax (max a b) t := ih (max a b)
      _ = pyMax a (b :: t) := h1.symm

lemma pyMin_le_mem_tail (l : List ℚ) : ∀ a x, x ∈ l → pyMin a l ≤ x := by
  induction l with
  | nil => intro a x hx; exact absurd hx (List.not_mem_nil x)
  | cons b t ih =>
    intro a x hx
    have h1 : pyMin a (b :: t) = pyMin (min a b) t := rfl
    rcases List.mem_cons.mp hx with h | h
    · rw [h1, h]
      exact le_trans (pyMin_le_init t (min a b)) (min_le_right a b)
    · rw [h1]
      exact ih (min a b) x h

lemma pyMin_le_mem (l : List ℚ) (a x : ℚ) (hx : x ∈ a :: l) : pyMin a l ≤ x := by
  rcases List.mem_cons.mp hx with h | h
  · rw [h]; exact pyMin_le_init l a
  · exact pyMin_le_mem_tail l a x h

lemma mem_le_pyMax_tail (l : List ℚ) : ∀ a x, x ∈ l → x ≤ pyMax a l := by
  induction l with
  | nil => intro a x hx; exact absurd hx (List.not_mem_nil x)
  | cons b t ih =>
    intro a x hx
    have h1 : pyMax a (b :: t) = pyMax (max a b) t := rfl
    rcases List.mem_cons.mp hx with h | h
    · rw [h1, h]
      exact le_trans (le_max_right a b) (init_le_pyMax t (max a b))
    · rw [h1]
      exact ih (max a b) x h

lemma mem_le_pyMax (l : List ℚ) (a x : ℚ) (hx : x ∈ a :: l) : x ≤ pyMax a l := by
  rcases List.mem_cons.mp hx with h | h
  · rw [h]; exact init_le_pyMax l a
  · exact mem_le_pyMax_tail l a x h

lemma pyMin_le_pyMax (a : ℚ) (l : List ℚ) : pyMin a l ≤ pyMax a l :=
  le_trans (pyMin_le_init l a) (init_le_pyMax l a)

lemma phase1_length (base : ℚ) (z : ℕ → ℤ) (feats : List Feature) :
    (phase1 base z feats).length = feats.length := by
  simp [phase1]

lemma phase2_length (u : ℕ → ℚ) (predictions : List ℚ) (feats1 : List Feature) :
    (phase2 u predictions feats1).length = feats1.length := by
  simp [phase2]

lemma phase1_getD (base : ℚ) (z : ℕ → ℤ) (feats : List Feature) (i : ℕ)
    (h : i < feats.length) :
    (phase1 base z feats).getD i dfeat =
      { feats.getD i dfeat with props := { (feats.getD i dfeat).props with
          aqi := some (featureAqi base (z i) (feats.getD i dfeat).props) } } := by
  simp only [phase1]
  rw [getD_map_range _ i h]

lemma phase2_getD (u : ℕ → ℚ) (predictions : List ℚ) (feats1 : List Feature) (i : ℕ)
    (h1 : i < feats1.length) (hp : i < predictions.length) :
    (phase2 u predictions feats1).getD i dfeat =
      { feats1.getD i dfeat with props := { (feats1.getD i dfeat).props with
          vulnerability := some (predictions.getD i 0),
          health_risk := some (healthRisk ((feats1.getD i dfeat).props.aqi.getD 0)
            (serverBld (feats1.getD i dfeat).props) (predictions.getD i 0) (u i)) } } := by
  simp only [phase2]
  rw [getD_map_range _ i h1, if_pos hp]

lemma gvp_none_features (forecast : Option (List ℤ)) (z : ℕ → ℤ) (u : ℕ → ℚ) (σ : ℕ)
    (data : FeatureCollection) :
    (getVulnerabilityPoints none forecast z u σ data).features =
      phase1 (cityAqiPrediction forecast) z data.features :=
  rfl

lemma gvp_some_features (model : ℚ × ℚ × ℚ → ℚ) (forecast : Option (List ℤ)) (z : ℕ → ℤ)
    (u : ℕ → ℚ) (σ : ℕ) (data : FeatureCollection) (h0 : data.features.length ≠ 0) :
    (getVulnerabilityPoints (some model) forecast z u σ data).features =
      phase2 u ((data.features.map (fun f => msRow f.props)).map model)
        (phase1 (cityAqiPrediction forecast) z data.features) := by
  simp only [getVulnerabilityPoints]
  rw [if_neg (by simpa using h0)]

lemma gvp_ctype (rf : Option (ℚ × ℚ × ℚ → ℚ)) (forecast : Option (List ℤ)) (z : ℕ → ℤ)
    (u : ℕ → ℚ) (σ : ℕ) (data : FeatureCollection) :
    (getVulnerabilityPoints rf forecast z u σ data).ctype = data.ctype := by
  cases rf with
  | none => rfl
  | some model =>
    simp only [getVulnerabilityPoints]
    split <;> rfl

lemma gvp_length (rf : Option (ℚ × ℚ × ℚ → ℚ)) (forecast : Option (List ℤ)) (z : ℕ → ℤ)
    (u : ℕ → ℚ) (σ : ℕ) (data : FeatureCollection) :
    (getVulnerabilityPoints rf forecast z u σ data).features.length =
      data.features.length := by
  cases rf with
  | none => rw [gvp_none_features, phase1_length]
  | some model =>
    by_cases h0 : data.features.length = 0
    · simp only [getVulnerabilityPoints]
      rw [if_pos (by simpa using h0), phase1_length]
    · rw [gvp_some_features model forecast z u σ data h0, phase2_length, phase1_length]

/-! ## Claim theorems -/

/-- C2: the normalizer returns an array of equal length in the same order,
each output equal to `(v - min) / (max - min)` and lying in `[0, 1]`; a
constant array (including length 0 and 1) yields all `0.5`; when min and max
are distinct, positions holding the min map to exactly `0` and positions
holding the max map to exactly `1`; the dividing branch is only taken when
`max ≠ min`, so no division by zero occurs. -/
theorem c2_normalize_minmax (arr : List ℚ) :
    (normalize arr).length = arr.length ∧
    normalize ([] : List ℚ) = [] ∧
    ∀ a rest, arr = a :: rest →
      ((pyMax a rest = pyMin a rest → ∀ x ∈ normalize arr, x = 1 / 2) ∧
       (pyMax a rest ≠ pyMin a rest →
        (∀ i, i < arr.length →
          (normalize arr).getD i 0 =
            (arr.getD i 0 - pyMin a rest) / (pyMax a rest - pyMin a rest)) ∧
        (∀ x ∈ normalize arr, 0 ≤ x ∧ x ≤ 1) ∧
        (∀ i, i < arr.length → arr.getD i 0 = pyMin a rest →
          (normalize arr).getD i 0 = 0) ∧
        (∀ i, i < arr.length → arr.getD i 0 = pyMax a rest →
          (normalize arr).getD i 0 = 1))) := by
  refine ⟨?_, rfl, ?_⟩
  · cases arr with
    | nil => rfl
    | cons a rest =>
      simp only [normalize]
      split <;> simp
  · intro a rest harr
    subst harr
    constructor
    · intro hconst x hx
      simp only [normalize] at hx
      rw [if_pos hconst] at hx
      rcases List.mem_map.mp hx with ⟨v, _, rfl⟩
      rfl
    · intro hne
      have hlt : pyMin a rest < pyMax a rest :=
        lt_of_le_of_ne (pyMin_le_pyMax a rest) (fun e => hne e.symm)
      have hpos : 0 < pyMax a rest - pyMin a rest := sub_pos.mpr hlt
      have hform : ∀ i, i < (a :: rest).length →
          (normalize (a :: rest)).getD i 0 =
            ((a :: rest).getD i 0 - pyMin a rest) / (pyMax a rest - pyMin a rest) := by
        intro i hi
        simp only [normalize]
        rw [if_neg hne]
        exact getD_map_of_lt (a :: rest) _ i hi 0 0
      have hbound : ∀ x ∈ normalize (a :: rest), 0 ≤ x ∧ x ≤ 1 := by
        intro x hx
        simp only [normalize] at hx
        rw [if_neg hne] at hx
        rcases List.mem_map.mp hx with ⟨v, hv, rfl⟩
        constructor
        · exact div_nonneg (sub_nonneg.mpr (pyMin_le_mem rest a v hv)) (le_of_lt hpos)
        · exact (div_le_one hpos).mpr (sub_le_sub_right (mem_le_pyMax rest a v hv) _)
      refine ⟨hform, hbound, ?_, ?_⟩
      · intro i hi hmin
        rw [hform i hi, hmin, sub_self, zero_div]
      · intro i hi hmax
        rw [hform i hi, hmax, div_self (ne_of_gt hpos)]

/-- Witness for C2 at the concrete array `[3, 1, 2]`: min `1` maps to `0`,
max `3` maps to `1`, the middle value maps to `1/2`, and the length is
preserved. -/
theorem c2_witness :
    pyMax 3 [(1 : ℚ), 2] ≠ pyMin 3 [(1 : ℚ), 2] ∧
    (normalize [(3 : ℚ), 1, 2]).getD 2 0 = 1 / 2 ∧
    (normalize [(3 : ℚ), 1, 2]).getD 1 0 = 0 ∧
    (normalize [(3 : ℚ), 1, 2]).getD 0 0 = 1 ∧
    (normalize [(3 : ℚ), 1, 2]).length = 3 := by
  have h := c2_normalize_minmax [(3 : ℚ), 1, 2]
  have hne : pyMax 3 [(1 : ℚ), 2] ≠ pyMin 3 [(1 : ℚ), 2] := by
    simp only [pyMax, pyMin, List.foldl]
    norm_num
  have h3 := (h.2.2 3 [1, 2] rfl).2 hne
  refine ⟨hne, ?_, ?_, ?_, ?_⟩
  · rw [h3.1 2 (by norm_num)]
    simp only [pyMax, pyMin, List.foldl]
    norm_num [List.getD]
  · exact h3.2.2.1 1 (by norm_num)
      (by simp only [pyMin, List.foldl]; norm_num [List.getD])
  · exact h3.2.2.2 0 (by norm_num)
      (by simp only [pyMax, List.foldl]; norm_num [List.getD])
  · simpa using h.1

/-- C1 (amended): in `model/generate_data.py` every kept feature's
vulnerability is exactly `V = W1*nT[i] - W2*nN[i] + W3*nB[i]` over the
per-metric min-max-normalized arrays, with no clamping (the stored value is
the raw linear combination), and for weights `(0.6, 0.2, 0.2)` and normalized
inputs `(1, 0, 1)` the formula yields exactly `0.8`.  (The Delhi generator
does not satisfy the claimed formula; see the counterexample.) -/
theorem c1_generate_data_formula (W1 W2 W3 : ℚ) (samples : List RawSample) (i : ℕ)
    (h : i < (generateData W1 W2 W3 samples).length) :
    ((generateData W1 W2 W3 samples).getD i dfeat).props.vulnerability =
      some (vulnFormula W1 W2 W3
        ((normalize ((samples.filter (fun s => genDataKeeps s.temp s.ndvi)).map
          (fun s => s.temp))).getD i 0)
        ((normalize ((samples.filter (fun s => genDataKeeps s.temp s.ndvi)).map
          (fun s => s.ndvi))).getD i 0)
        ((normalize ((samples.filter (fun s => genDataKeeps s.temp s.ndvi)).map
          (fun s => s.density))).getD i 0)) ∧
    vulnFormula (6 / 10) (2 / 10) (2 / 10) 1 0 1 = 8 / 10 := by
  constructor
  · simp only [generateData] at h ⊢
    rw [List.length_map, List.length_range] at h
    rw [getD_map_range _ i h]
  · norm_num [vulnFormula]

/-- Witness for C1 at one concrete kept sample and `i = 0`. -/
theorem c1_witness :
    ((generateData (6 / 10) (2 / 10) (2 / 10) [⟨0, 0, 10, 1 / 2, 0⟩]).getD 0
        dfeat).props.vulnerability =
      some (vulnFormula (6 / 10) (2 / 10) (2 / 10)
        ((normalize (([⟨0, 0, 10, 1 / 2, 0⟩] : List RawSample).filter
          (fun s => genDataKeeps s.temp s.ndvi) |>.map (fun s => s.temp))).getD 0 0)
        ((normalize (([⟨0, 0, 10, 1 / 2, 0⟩] : List RawSample).filter
          (fun s => genDataKeeps s.temp s.ndvi) |>.map (fun s => s.ndvi))).getD 0 0)
        ((normalize (([⟨0, 0, 10, 1 / 2, 0⟩] : List RawSample).filter
          (fun s => genDataKeeps s.temp s.ndvi) |>.map (fun s => s.density))).getD 0 0)) ∧
    vulnFormula (6 / 10) (2 / 10) (2 / 10) 1 0 1 = 8 / 10 :=
  c1_generate_data_formula (6 / 10) (2 / 10) (2 / 10) [⟨0, 0, 10, 1 / 2, 0⟩] 0
    (by norm_num [generateData, genDataKeeps])

/-- Counterexample for C1 as stated: the Delhi generator also scores feature
collections with a fixed-weight formula, but its stored vulnerability at the
sample `(val_lst, val_ndvi, density) = (50, -0.1, 1)` is `1`, whereas
`w1*normTemp - w2*normNdvi + w3*normDensity` with its weights
`(0.5, 0.3, 0.2)` and its normalized inputs gives `0.7`: the Delhi score is
the additive, clamped `0.5*nT + 0.3*(1 - nN) + 0.2*b`, not the claimed
unclamped subtractive formula. -/
theorem c1_delhi_counterexample :
    ((delhiGenerate [⟨0, 0, 50, -1 / 10, 1⟩]).getD 0 dfeat).props.vulnerability = some 1 ∧
    vulnFormula (1 / 2) (3 / 10) (1 / 5)
      (delhiNormTemp 50) (delhiNdvi01 (-1 / 10)) (clamp01 1) = 7 / 10 ∧
    (1 : ℚ) ≠ 7 / 10 := by
  refine ⟨?_, ?_, by norm_num⟩
  · norm_num [delhiGenerate, delhiPoint, delhiKeeps, delhiVuln, delhiNormTemp,
      delhiNdvi01, clamp01, pyRoundTo, emptyProps, List.filterMap]
  · norm_num [vulnFormula, delhiNormTemp, delhiNdvi01, clamp01]

/-- C3 (code bug evidence): `model/generate_data.py` keeps a candidate point
whose sampled temperature is the nodata sentinel `-9999` (it only tests
`ndvi < 0`), and writes the sentinel temperature into the output collection,
while the Delhi generator's plausibility check rejects the same sample.  The
spec requires such points to be excluded entirely. -/
theorem c3_sentinel_kept :
    genDataKeeps (-9999) (1 / 2) = true ∧
    (generateData (6 / 10) (2 / 10) (2 / 10) [⟨0, 0, -9999, 1 / 2, 0⟩]).length = 1 ∧
    ((generateData (6 / 10) (2 / 10) (2 / 10) [⟨0, 0, -9999, 1 / 2, 0⟩]).getD 0
        dfeat).props.temp = some (-9999) ∧
    delhiKeeps (-9999) (1 / 2) = false := by
  refine ⟨?_, ?_, ?_, ?_⟩
  · simp only [genDataKeeps, decide_eq_true_eq]
    norm_num
  · norm_num [generateData, genDataKeeps]
  · norm_num [generateData, genDataKeeps, emptyProps, List.range_succ, List.getD]
  · simp only [delhiKeeps]
    norm_num

/-- C8: for every feature of the priority tool's input, the counterfactual
score is `V1 = w1*nT[i] - w2*min(nN[i] + 0.2, 1.0) + w3*nB[i]` over the
dataset-wide renormalized metrics, and `plantPriority` is exactly `V0 - V1`
where `V0` is the stored vulnerability. -/
theorem c8_plant_priority (w1 w2 w3 : ℚ) (feats : List PriorityIn) (i : ℕ)
    (h : i < feats.length) :
    (computePriorities w1 w2 w3 feats).length = feats.length ∧
    (computePriorities w1 w2 w3 feats).getD i 0 =
      (feats.getD i default).vulnerability -
        (w1 * (normalize (feats.map (fun f => f.temp))).getD i 0
          - w2 * min ((normalize (feats.map (fun f => f.ndvi))).getD i 0 + 1 / 5) 1
          + w3 * (normalize (feats.map (fun f => f.bldDensity))).getD i 0) := by
  constructor
  · simp [computePriorities]
  · simp only [computePriorities]
    rw [getD_map_range _ i h]

/-- Witness for C8 at one concrete feature and `i = 0`. -/
theorem c8_witness :
    (computePriorities (6 / 10) (2 / 10) (2 / 10)
        [⟨30, 1 / 2, 1 / 4, 3 / 5⟩]).length = 1 ∧
    (computePriorities (6 / 10) (2 / 10) (2 / 10) [⟨30, 1 / 2, 1 / 4, 3 / 5⟩]).getD 0 0 =
      (([⟨30, 1 / 2, 1 / 4, 3 / 5⟩] : List PriorityIn).getD 0 default).vulnerability -
        ((6 / 10) * (normalize (([⟨30, 1 / 2, 1 / 4, 3 / 5⟩] : List PriorityIn).map
            (fun f => f.temp))).getD 0 0
          - (2 / 10) * min ((normalize (([⟨30, 1 / 2, 1 / 4, 3 / 5⟩] : List PriorityIn).map
            (fun f => f.ndvi))).getD 0 0 + 1 / 5) 1
          + (2 / 10) * (normalize (([⟨30, 1 / 2, 1 / 4, 3 / 5⟩] : List PriorityIn).map
            (fun f => f.bldDensity))).getD 0 0) :=
  c8_plant_priority (6 / 10) (2 / 10) (2 / 10) [⟨30, 1 / 2, 1 / 4, 3 / 5⟩] 0 (by norm_num)

/-- C5: the tiered health risk always lies in `[0.1, 1.0]`, and whenever the
feature's AQI exceeds `300`, the result is at least the tier-(a) floor
`0.95` regardless of density, vulnerability, or the (nonnegative) random
draw. -/
theorem c5_health_risk_tiering (aqi_val : ℤ) (bld vuln_score r : ℚ) :
    (1 / 10 ≤ healthRisk aqi_val bld vuln_score r ∧
      healthRisk aqi_val bld vuln_score r ≤ 1) ∧
    (0 ≤ r → 300 < aqi_val → 95 / 100 ≤ healthRisk aqi_val bld vuln_score r) := by
  refine ⟨⟨?_, ?_⟩, ?_⟩
  · simp only [healthRisk]
    exact le_max_left _ _
  · simp only [healthRisk]
    exact max_le (by norm_num) (min_le_left _ _)
  · intro h0 haqi
    simp only [healthRisk, if_pos haqi]
    have h2 : (95 : ℚ) / 100 ≤ 95 / 100 + (5 / 100) * r := by nlinarith
    exact le_trans (le_min (by norm_num) h2) (le_max_right _ _)

/-- Witness for C5 at `aqi = 301`, `bld = 0`, `vuln = 0`, `r = 0`. -/
theorem c5_witness :
    1 / 10 ≤ healthRisk 301 0 0 0 ∧ healthRisk 301 0 0 0 ≤ 1 ∧
    95 / 100 ≤ healthRisk 301 0 0 0 :=
  ⟨(c5_health_risk_tiering 301 0 0 0).1.1,
   (c5_health_risk_tiering 301 0 0 0).1.2,
   (c5_health_risk_tiering 301 0 0 0).2 (le_refl 0) (by norm_num)⟩

/-- C6: both data generators store building density only under `bldDensity`
(the `bld_density` key is never written), while the serving layer reads
`bld_density` with default `0`; consequently for generator-produced features
the AQI local-variance density term `bld*50` is `0` and the tier-(b)
health-risk condition `bld > 0.8 and vuln > 0.6` is never satisfied. -/
theorem c6_bld_density_mismatch (W1 W2 W3 : ℚ) (samples : List RawSample)
    (dsamples : List DelhiSample) (p : Props) (hp : p.bld_density = none) (v : ℚ) :
    (∀ f ∈ generateData W1 W2 W3 samples,
      f.props.bld_density = none ∧ f.props.bldDensity.isSome = true) ∧
    (∀ f ∈ delhiGenerate dsamples,
      f.props.bld_density = none ∧ f.props.bldDensity.isSome = true) ∧
    serverBld p = 0 ∧
    serverBld p * 50 = 0 ∧
    ¬ (8 / 10 < serverBld p ∧ 6 / 10 < v) := by
  have hserv : serverBld p = 0 := by
    simp [serverBld, hp]
  refine ⟨?_, ?_, hserv, ?_, ?_⟩
  · intro f hf
    simp only [generateData] at hf
    rcases List.mem_map.mp hf with ⟨i, _, rfl⟩
    exact ⟨rfl, rfl⟩
  · intro f hf
    rcases List.mem_filterMap.mp hf with ⟨s, _, hs⟩
    simp only [delhiPoint] at hs
    split at hs
    · rcases Option.some.injEq _ _ ▸ hs with rfl
      exact ⟨rfl, rfl⟩
    · exact absurd hs (by simp)
  · rw [hserv]; norm_num
  · rintro ⟨h1, _⟩
    rw [hserv] at h1
    exact absurd h1 (by norm_num)

/-- Witness for C6 at concrete generator inputs (density `1` sampled), an
empty server-side property lookup, and `v = 1`. -/
theorem c6_witness :
    (∀ f ∈ generateData (6 / 10) (2 / 10) (2 / 10) [⟨0, 0, 10, 1 / 2, 1⟩],
      f.props.bld_density = none ∧ f.props.bldDensity.isSome = true) ∧
    (∀ f ∈ delhiGenerate [⟨0, 0, 30, 1 / 2, 1⟩],
      f.props.bld_density = none ∧ f.props.bldDensity.isSome = true) ∧
    serverBld emptyProps = 0 ∧
    serverBld emptyProps * 50 = 0 ∧
    ¬ (8 / 10 < serverBld emptyProps ∧ 6 / 10 < (1 : ℚ)) :=
  c6_bld_density_mismatch (6 / 10) (2 / 10) (2 / 10) [⟨0, 0, 10, 1 / 2, 1⟩]
    [⟨0, 0, 30, 1 / 2, 1⟩] emptyProps rfl 1

/-- C4: with a regression model loaded, the handler builds one `[temp, ndvi,
bld]` row per feature (the batch matrix has exactly `N` rows), batch
inference returns exactly `N` scores, and the feature at index `i` receives
the model's prediction for the row built from feature `i` — input order is
preserved end-to-end. -/
theorem c4_batch_model_alignment (model : ℚ × ℚ × ℚ → ℚ) (forecast : Option (List ℤ))
    (z : ℕ → ℤ) (u : ℕ → ℚ) (σ : ℕ) (data : FeatureCollection) (i : ℕ)
    (h : i < data.features.length) :
    (data.features.map (fun f => msRow f.props)).length = data.features.length ∧
    ((data.features.map (fun f => msRow f.props)).map model).length =
      data.features.length ∧
    (getVulnerabilityPoints (some model) forecast z u σ data).features.length =
      data.features.length ∧
    ((getVulnerabilityPoints (some model) forecast z u σ data).features.getD i
        dfeat).props.vulnerability =
      some (model (msRow ((data.features.getD i dfeat).props))) := by
  have h0 : data.features.length ≠ 0 :=
    Nat.pos_iff_ne_zero.mp (lt_of_le_of_lt (Nat.zero_le i) h)
  have h1 : i < (phase1 (cityAqiPrediction forecast) z data.features).length := by
    rw [phase1_length]; exact h
  have hp : i < ((data.features.map (fun f => msRow f.props)).map model).length := by
    simpa using h
  refine ⟨by simp, by simp, gvp_length _ _ _ _ _ _, ?_⟩
  rw [gvp_some_features model forecast z u σ data h0,
    phase2_getD u _ _ i h1 hp]
  have e1 : ((data.features.map (fun f => msRow f.props)).map model).getD i 0 =
      model ((data.features.map (fun f => msRow f.props)).getD i (msRow dfeat.props)) :=
    getD_map_of_lt _ model i (by simpa using h) 0 _
  have e2 : (data.features.map (fun f => msRow f.props)).getD i (msRow dfeat.props) =
      msRow ((data.features.getD i dfeat).props) :=
    getD_map_of_lt _ _ i h _ dfeat
  exact congrArg some (e1.trans (congrArg model e2))

/-- Witness for C4: a one-feature stored collection scored by the concrete
model summing its three inputs; feature `0` receives the prediction for its
own row. -/
theorem c4_witness :
    (wCollection.features.map (fun f => msRow f.props)).length =
      wCollection.features.length ∧
    ((wCollection.features.map (fun f => msRow f.props)).map
        (fun row => row.1 + row.2.1 + row.2.2)).length = wCollection.features.length ∧
    (getVulnerabilityPoints (some (fun row => row.1 + row.2.1 + row.2.2)) none
        (fun _ => 0) (fun _ => 0) 0 wCollection).features.length =
      wCollection.features.length ∧
    ((getVulnerabilityPoints (some (fun row => row.1 + row.2.1 + row.2.2)) none
        (fun _ => 0) (fun _ => 0) 0 wCollection).features.getD 0
        dfeat).props.vulnerability =
      some ((fun row => row.1 + row.2.1 + row.2.2)
        (msRow ((wCollection.features.getD 0 dfeat).props))) :=
  c4_batch_model_alignment (fun row => row.1 + row.2.1 + row.2.2) none
    (fun _ => 0) (fun _ => 0) 0 wCollection 0 (by norm_num [wCollection])

/-- C7 (amended): the handler reseeds the global PRNG with the fixed seed 42
(`random.seed(42)`), so its output does not depend on whatever PRNG state
existed before the request — two requests over the same stored collection
with the same model, the same post-seed draw sequences, and the same
external-forecast outcome yield identical output.  (Byte-for-byte equality
across requests does not hold unconditionally: the externally fetched
forecast can change between requests; see the counterexample.) -/
theorem c7_reseed_determinism (rf : Option (ℚ × ℚ × ℚ → ℚ)) (forecast : Option (List ℤ))
    (z : ℕ → ℤ) (u : ℕ → ℚ) (σ1 σ2 : ℕ) (data : FeatureCollection) :
    getVulnerabilityPoints rf forecast z u σ1 data =
      getVulnerabilityPoints rf forecast z u σ2 data :=
  rfl

/-- Counterexample for C7 as stated: two requests over the same stored
one-feature collection, with identical seeded draw sequences, disagree on the
derived `aqi` value as soon as the external forecast fetch returns different
data (category 1 forecast versus fetch failure): 40 versus 150. -/
theorem c7_forecast_counterexample :
    ((getVulnerabilityPoints none (some [1]) (fun _ => 0) (fun _ => 0) 0
        bareCollection).features.getD 0 dfeat).props.aqi = some 40 ∧
    ((getVulnerabilityPoints none none (fun _ => 0) (fun _ => 0) 0
        bareCollection).features.getD 0 dfeat).props.aqi = some 150 ∧
    ((40 : ℤ)) ≠ 150 := by
  have hb : bareCollection.features.length = 1 := rfl
  refine ⟨?_, ?_, by norm_num⟩
  · rw [gvp_none_features, phase1_getD _ _ _ 0 (by rw [hb]; norm_num)]
    show some (featureAqi (cityAqiPrediction (some [1])) 0 dfeat.props) = some 40
    norm_num [featureAqi, cityAqiPrediction, owmMapping, serverBld, serverNdvi, truncQ,
      dfeat, emptyProps]
  · rw [gvp_none_features, phase1_getD _ _ _ 0 (by rw [hb]; norm_num)]
    show some (featureAqi (cityAqiPrediction none) 0 dfeat.props) = some 150
    norm_num [featureAqi, cityAqiPrediction, serverBld, serverNdvi, truncQ,
      dfeat, emptyProps]

/-- C9 (amended): when the external forecast fetch fails, is unavailable, or
returns a non-200 response, the city-wide base AQI defaults to the fixed
value `150` (not 200 — `200` is only the per-item default applied to a
forecast category outside 1..5), and request processing continues: the
handler still returns a collection of the same length. -/
theorem c9_forecast_fallback (rf : Option (ℚ × ℚ × ℚ → ℚ)) (z : ℕ → ℤ) (u : ℕ → ℚ)
    (σ : ℕ) (data : FeatureCollection) :
    cityAqiPrediction none = 150 ∧
    owmMapping 7 = 200 ∧
    (getVulnerabilityPoints rf none z u σ data).features.length =
      data.features.length :=
  ⟨rfl, by norm_num [owmMapping], gvp_length rf none z u σ data⟩

/-- Counterexample for C9 as stated: the fetch-failure fallback base AQI is
not `200`. -/
theorem c9_counterexample : cityAqiPrediction none ≠ 200 := by
  norm_num [cityAqiPrediction]

/-- C10 (amended): every served feature is enriched with `aqi` (computed from
the forecast base, its own density/vegetation and the seeded noise), the
top-level `type` of the served document is the stored collection's type
(`"FeatureCollection"` for the generators' output), and when a model is
loaded every feature also gains `health_risk`; but no `pop` property is ever
added — the population generator has been removed, so each feature's `pop`
is exactly what the stored file already had. -/
theorem c10_served_enrichment (rf : Option (ℚ × ℚ × ℚ → ℚ)) (forecast : Option (List ℤ))
    (z : ℕ → ℤ) (u : ℕ → ℚ) (σ : ℕ) (data : FeatureCollection) (i : ℕ)
    (h : i < data.features.length) :
    (getVulnerabilityPoints rf forecast z u σ data).ctype = data.ctype ∧
    (getVulnerabilityPoints rf forecast z u σ data).features.length =
      data.features.length ∧
    ((getVulnerabilityPoints rf forecast z u σ data).features.getD i dfeat).props.aqi =
      some (featureAqi (cityAqiPrediction forecast) (z i)
        ((data.features.getD i dfeat).props)) ∧
    ((getVulnerabilityPoints rf forecast z u σ data).features.getD i dfeat).props.pop =
      ((data.features.getD i dfeat).props).pop ∧
    (rf.isSome = true →
      ((getVulnerabilityPoints rf forecast z u σ data).features.getD i
          dfeat).props.health_risk.isSome = true) := by
  have h0 : data.features.length ≠ 0 :=
    Nat.pos_iff_ne_zero.mp (lt_of_le_of_lt (Nat.zero_le i) h)
  have h1 : i < (phase1 (cityAqiPrediction forecast) z data.features).length := by
    rw [phase1_length]; exact h
  refine ⟨gvp_ctype _ _ _ _ _ _, gvp_length _ _ _ _ _ _, ?_⟩
  cases rf with
  | none =>
    rw [gvp_none_features, phase1_getD _ _ _ i h]
    exact ⟨rfl, rfl, fun hcontra => absurd hcontra (by simp)⟩
  | some model =>
    have hp : i < ((data.features.map (fun f => msRow f.props)).map model).length := by
      simpa using h
    rw [gvp_some_features model forecast z u σ data h0, phase2_getD u _ _ i h1 hp,
      phase1_getD _ _ _ i h]
    exact ⟨rfl, rfl, fun _ => rfl⟩

/-- Witness for C10 with a loaded model over the concrete one-feature stored
collection. -/
theorem c10_witness :
    (getVulnerabilityPoints (some (fun row => row.1)) none (fun _ => 0) (fun _ => 0) 0
        wCollection).ctype = wCollection.ctype ∧
    (getVulnerabilityPoints (some (fun row => row.1)) none (fun _ => 0) (fun _ => 0) 0
        wCollection).features.length = wCollection.features.length ∧
    ((getVulnerabilityPoints (some (fun row => row.1)) none (fun _ => 0) (fun _ => 0) 0
        wCollection).features.getD 0 dfeat).props.aqi =
      some (featureAqi (cityAqiPrediction none) 0
        ((wCollection.features.getD 0 dfeat).props)) ∧
    ((getVulnerabilityPoints (some (fun row => row.1)) none (fun _ => 0) (fun _ => 0) 0
        wCollection).features.getD 0 dfeat).props.pop =
      ((wCollection.features.getD 0 dfeat).props).pop ∧
    ((some (fun row => row.1) : Option (ℚ × ℚ × ℚ → ℚ)).isSome = true →
      ((getVulnerabilityPoints (some (fun row => row.1)) none (fun _ => 0) (fun _ => 0) 0
          wCollection).features.getD 0 dfeat).props.health_risk.isSome = true) :=
  c10_served_enrichment (some (fun row => row.1)) none (fun _ => 0) (fun _ => 0) 0
    wCollection 0 (by norm_num [wCollection])

/-- Counterexample for C10 as stated: a served nonempty collection (model
loaded, so `aqi` and `health_risk` are present) whose feature still has no
`pop` property — the serving layer never adds a population estimate. -/
theorem c10_counterexample :
    (getVulnerabilityPoints (some (fun row => row.1)) none (fun _ => 0) (fun _ => 0) 0
        bareCollection).features.length = 1 ∧
    ¬ (((getVulnerabilityPoints (some (fun row => row.1)) none (fun _ => 0) (fun _ => 0) 0
        bareCollection).features.getD 0 dfeat).props.pop.isSome = true) := by
  have h0 : bareCollection.features.length ≠ 0 := by norm_num [bareCollection]
  have h1 : (0 : ℕ) < (phase1 (cityAqiPrediction none) (fun _ => 0)
      bareCollection.features).length := by
    rw [phase1_length]; norm_num [bareCollection]
  have hp : (0 : ℕ) < ((bareCollection.features.map (fun f => msRow f.props)).map
      (fun row => row.1)).length := by
    norm_num [bareCollection]
  constructor
  · rw [gvp_length]; rfl
  · rw [gvp_some_features _ none _ _ 0 bareCollection h0,
      phase2_getD _ _ _ 0 h1 hp, phase1_getD _ _ _ 0 (by norm_num [bareCollection])]
    simp [bareCollection, dfeat, emptyProps]

end HotspotsV2
